import Mathlib

/-!
Verification of the Pong game implementation (src/suzygptpongv0.py).

The development shallowly embeds the parts of the program that the
specification talks about: the procedural audio generation
(generate_tone, generate_sweep, the DKC theme note segments), the
sound catalog and mixer dispatch, the paddle and ball physics, the
particle system, the per-frame scoring step and the keyboard-driven
game-state machine.  Machine reals of the source are modelled as exact
rationals where the control flow is decidable and as Lean reals where
trigonometric functions appear; pygame rects store integers, so every
assignment of a float to a rect coordinate goes through Python/C
truncation toward zero, modelled by pyInt / pyIntR below.
-/

namespace Pong

/-- Python int()/C int cast applied to an exact rational: truncation toward zero. -/
def pyInt (q : ℚ) : ℤ := if 0 ≤ q then ⌊q⌋ else -⌊-q⌋

/-- Truncation toward zero of a real number (numpy astype to an integer type,
pygame rect coordinate assignment). -/
noncomputable def pyIntR (x : ℝ) : ℤ := if 0 ≤ x then ⌊x⌋ else -⌊-x⌋

/-- Window width constant WIDTH = 1200. -/
def WIDTH : ℤ := 1200

/-- Window height constant HEIGHT = 675. -/
def HEIGHT : ℤ := 675

/-- Paddle height constant PAD_H = 100. -/
def PAD_H : ℤ := 100

/-- Ball square size constant BALL_SIZE = 16. -/
def BALL_SIZE : ℤ := 16

/-- First-to WIN_SCORE = 5 points wins. -/
def WIN_SCORE : ℤ := 5

/-- Audio sample rate, 22050 Hz. -/
def SAMPLE_RATE : ℚ := 22050

/-- Master volume 0.05. -/
def MASTER_VOLUME : ℚ := 1/20

/-- AI paddle speed, 480 units per second. -/
def AI_SPEED : ℚ := 480

/-- Player paddle speed, 550 units per second. -/
def PADDLE_SPEED : ℚ := 550

/-- Initial ball speed, 500 units per second. -/
def BALL_SPEED_INIT : ℚ := 500

/-- Waveform selector strings of generate_tone / generate_sweep. -/
inductive WaveType
  | square
  | sine
  | triangle
  | noise
deriving DecidableEq

/-- Envelope selector strings of generate_tone; a string other than
the two recognised ones leaves the samples unshaped. -/
inductive EnvType
  | sharp
  | pluck
  | off
deriving DecidableEq

/-- Message of numpy ValueError raised by np.zeros on a negative size. -/
def errNegDim : String := "ValueError: negative dimensions are not allowed"

/-- Message of numpy ValueError raised by np.max on an empty array. -/
def errEmptyMax : String :=
  "ValueError: zero-size array to reduction operation maximum which has no identity"

/-- Base waveform sample of generate_tone at sample index i
(time t = i / SAMPLE_RATE); rnd supplies the np.random.random() draw
used by the noise waveform. -/
noncomputable def toneBase (frequency : ℝ) (wave : WaveType) (rnd : ℕ → ℝ) (i : ℕ) : ℝ :=
  let t : ℝ := (i : ℝ) / 22050
  match wave with
  | WaveType.square => Real.sign (Real.sin (2 * Real.pi * frequency * t)) * (1/2)
  | WaveType.sine => Real.sin (2 * Real.pi * frequency * t)
  | WaveType.triangle => 2 * Real.arcsin (Real.sin (2 * Real.pi * frequency * t)) / Real.pi
  | WaveType.noise => rnd i * 2 - 1

/-- Envelope applied inside the generate_tone per-sample loop.  The float
conditions i < frames * 0.1 and i > frames * 0.7 are expressed exactly on
naturals as 10 * i < frames and 10 * i > 7 * frames. -/
noncomputable def toneEnvelope (env : EnvType) (frames i : ℕ) (v : ℝ) : ℝ :=
  match env with
  | EnvType.sharp =>
      if 10 * i < frames then v * ((i : ℝ) / ((frames : ℝ) * (1/10)))
      else if 10 * i > 7 * frames then
        v * (((frames : ℝ) - (i : ℝ)) / ((frames : ℝ) * (3/10)))
      else v
  | EnvType.pluck => v * Real.exp (-3 * (i : ℝ) / (frames : ℝ))
  | EnvType.off => v

/-- Harmonic enrichment added to every non-noise tone after the loop:
a second harmonic at weight 0.1 and a half-frequency sub-harmonic at
weight 0.05. -/
noncomputable def toneHarmonics (frequency : ℝ) (wave : WaveType) (i : ℕ) (v : ℝ) : ℝ :=
  if wave = WaveType.noise then v
  else v + Real.sin (2 * Real.pi * frequency * 2 * (i : ℝ) / 22050) * (1/10)
         + Real.sin (2 * Real.pi * frequency * (1/2) * (i : ℝ) / 22050) * (1/20)

/-- Peak absolute value of a sample list (np.max of np.abs). -/
noncomputable def absMax (l : List ℝ) : ℝ := (l.map (fun v => |v|)).foldr max 0

/-- Normalisation, 16-bit conversion and stereo duplication shared by
generate_tone and generate_sweep: divide by the peak plus 1e-10, scale to
32767 * MASTER_VOLUME, truncate to int16 and duplicate into two channels. -/
noncomputable def normalizeStereo (l : List ℝ) : List (ℤ × ℤ) :=
  l.map (fun v =>
    let w := pyIntR (v / (absMax l + 1/10000000000) * 32767 * (MASTER_VOLUME : ℝ))
    (w, w))

/-- RetroSounds.generate_tone.  frames = int(duration * SAMPLE_RATE) with
Python truncation; np.zeros raises on a negative frame count and the
normalisation's np.max raises on an empty array, so only a positive frame
count yields a buffer. -/
noncomputable def generate_tone (frequency : ℝ) (duration : ℚ) (wave : WaveType)
    (env : EnvType) (rnd : ℕ → ℝ) : Except String (List (ℤ × ℤ)) :=
  let frames : ℤ := pyInt (duration * SAMPLE_RATE)
  if frames < 0 then Except.error errNegDim
  else if frames = 0 then Except.error errEmptyMax
  else
    let n := frames.toNat
    let raw := (List.range n).map (fun i =>
      toneHarmonics frequency wave i (toneEnvelope env n i (toneBase frequency wave rnd i)))
    Except.ok (normalizeStereo raw)

/-- Per-sample frequency parameter of generate_sweep: logarithmic
interpolation start * (end / start) ^ (t / duration). -/
noncomputable def sweepFreq (startFreq endFreq duration t : ℝ) : ℝ :=
  startFreq * (endFreq / startFreq) ^ (t / duration)

/-- Sample of generate_sweep at index i: square or sine waveform at the
swept frequency, exponential decay envelope exp(-2 t / duration), plus
uniform noise (rnd i - 0.5) * 0.05. -/
noncomputable def sweepSample (startFreq endFreq : ℝ) (duration : ℚ) (wave : WaveType)
    (rnd : ℕ → ℝ) (i : ℕ) : ℝ :=
  let t : ℝ := (i : ℝ) / 22050
  let freq := sweepFreq startFreq endFreq (duration : ℝ) t
  let base :=
    if wave = WaveType.square then Real.sign (Real.sin (2 * Real.pi * freq * t)) * (1/2)
    else Real.sin (2 * Real.pi * freq * t)
  base * Real.exp (-2 * t / (duration : ℝ)) + (rnd i - 1/2) * (1/20)

/-- RetroSounds.generate_sweep, with the same frame-count and error
structure as generate_tone. -/
noncomputable def generate_sweep (startFreq endFreq : ℝ) (duration : ℚ) (wave : WaveType)
    (rnd : ℕ → ℝ) : Except String (List (ℤ × ℤ)) :=
  let frames : ℤ := pyInt (duration * SAMPLE_RATE)
  if frames < 0 then Except.error errNegDim
  else if frames = 0 then Except.error errEmptyMax
  else
    let n := frames.toNat
    Except.ok (normalizeStereo ((List.range n).map (sweepSample startFreq endFreq duration wave rnd)))

/-- MusicNote of the DKC theme: frequency (0 = rest), duration in seconds,
volume in [0, 1]. -/
structure MusicNote where
  frequency : ℚ
  duration : ℚ
  volume : ℚ
deriving DecidableEq

/-- Melody sample of generate_dkc_theme at index i: four harmonics at
weights 0.4 / 0.3 / 0.2 / 0.1, a 2 percent linear attack, exponential
release past 10 percent, transient noise over the first 5 percent, scaled
by volume * MASTER_VOLUME * 1.5. -/
noncomputable def melodySample (note : MusicNote) (rnd : ℕ → ℝ) (frames i : ℕ) : ℝ :=
  let t : ℝ := (i : ℝ) / 22050
  let f : ℝ := (note.frequency : ℝ)
  let harm := Real.sin (2 * Real.pi * f * t) * (2/5)
      + Real.sin (2 * Real.pi * f * 2 * t) * (3/10)
      + Real.sin (2 * Real.pi * f * 3 * t) * (1/5)
      + Real.sin (2 * Real.pi * f * 4 * t) * (1/10)
  let shaped :=
    if 50 * i < frames then harm * ((i : ℝ) / ((frames : ℝ) * (1/50)))
    else if 10 * i > frames then
      harm * Real.exp (-3 * ((i : ℝ) - (frames : ℝ) * (1/10)) / (frames : ℝ))
    else harm
  let noisy := if 20 * i < frames then shaped + (rnd i - 1/2) * (1/5) else shaped
  noisy * (note.volume : ℝ) * (MASTER_VOLUME : ℝ) * (3/2)

/-- Bass sample of generate_dkc_theme at index i: fundamental at weight
0.8 plus a half-frequency partial at 0.4, 1 percent attack, exponential
release past 5 percent, scaled by volume * MASTER_VOLUME * 1.2. -/
noncomputable def bassSample (note : MusicNote) (frames i : ℕ) : ℝ :=
  let t : ℝ := (i : ℝ) / 22050
  let f : ℝ := (note.frequency : ℝ)
  let harm := Real.sin (2 * Real.pi * f * t) * (4/5)
      + Real.sin (2 * Real.pi * f * (1/2) * t) * (2/5)
  let shaped :=
    if 100 * i < frames then harm * ((i : ℝ) / ((frames : ℝ) * (1/100)))
    else if 20 * i > frames then
      harm * Real.exp (-5 * ((i : ℝ) - (frames : ℝ) * (1/20)) / (frames : ℝ))
    else harm
  shaped * (note.volume : ℝ) * (MASTER_VOLUME : ℝ) * (6/5)

/-- Melody-voice segment rendered for one MusicNote of the DKC theme:
int(duration * SAMPLE_RATE) samples, synthesised for a sounding note and
zero-filled for a rest; np.zeros raises on a negative frame count.
The unused rnd argument of the rest branch mirrors the sounding branch. -/
noncomputable def noteSegmentMelody (note : MusicNote) (rnd : ℕ → ℝ) :
    Except String (List ℝ) :=
  let frames : ℤ := pyInt (note.duration * SAMPLE_RATE)
  if frames < 0 then Except.error errNegDim
  else if 0 < note.frequency then
    Except.ok ((List.range frames.toNat).map (melodySample note rnd frames.toNat))
  else Except.ok (List.replicate frames.toNat 0)

/-- Bass-voice segment rendered for one MusicNote of the DKC theme. -/
noncomputable def noteSegmentBass (note : MusicNote) : Except String (List ℝ) :=
  let frames : ℤ := pyInt (note.duration * SAMPLE_RATE)
  if frames < 0 then Except.error errNegDim
  else if 0 < note.frequency then
    Except.ok ((List.range frames.toNat).map (bassSample note frames.toNat))
  else Except.ok (List.replicate frames.toNat 0)

/-- Names of the precomputed one-shot effects built by generate_all_sounds. -/
def soundNames : List String :=
  ["paddle_hit_1", "paddle_hit_2", "paddle_hit_3", "wall_bounce",
   "player_score", "ai_score", "game_start", "game_over_win",
   "game_over_lose", "menu_beep"]

/-- pygame.mixer.find_channel(): index of the first idle channel, if any.
A mixer state is the list of channels, each holding the name of the sound
it is playing or nothing when idle. -/
def findChannel : List (Option String) → Option ℕ
  | [] => Option.none
  | Option.none :: _ => some 0
  | some _ :: rest => (findChannel rest).map (fun k => k + 1)

/-- RetroSounds.play: a known name plays on the first idle channel, or
forcibly on channel 0 when none is idle; an unknown name does nothing. -/
def play (st : List (Option String)) (name : String) : List (Option String) :=
  if name ∈ soundNames then
    match findChannel st with
    | some i => st.set i (some name)
    | Option.none => st.set 0 (some name)
  else st

/-- Paddle.move: clamp rect.y + dy into [0, HEIGHT - PAD_H] in float
arithmetic, then store into the integer rect (truncation toward zero;
the clamped value is nonnegative, so this is the floor). -/
def Paddle.move (y : ℤ) (dy : ℚ) : ℤ :=
  pyInt (max 0 (min ((HEIGHT - PAD_H : ℤ) : ℚ) ((y : ℚ) + dy)))

/-- Sign of the AI tracking offset: 1 if diff > 0 else -1. -/
def aiDir (diff : ℤ) : ℚ := if 0 < diff then 1 else -1

/-- Magnitude of the AI tracking step: min(abs(diff), AI_SPEED * dt). -/
def aiAmount (diff : ℤ) (dt : ℚ) : ℚ := min (|(diff : ℚ)|) (AI_SPEED * dt)

/-- Paddle.ai_move: no movement inside the 5-pixel deadband around the
paddle centre (rect.centery = y + PAD_H // 2), otherwise a Paddle.move
by direction * min(abs(diff), AI_SPEED * dt). -/
def Paddle.aiMove (y targetY : ℤ) (dt : ℚ) : ℤ :=
  if |targetY - (y + PAD_H / 2)| < 5 then y
  else Paddle.move y
    (aiDir (targetY - (y + PAD_H / 2)) * aiAmount (targetY - (y + PAD_H / 2)) dt)

/-- Particle state: position, velocity, colour, size, remaining life and
the decay rate fixed at spawn. -/
structure Particle where
  x : ℚ
  y : ℚ
  velX : ℚ
  velY : ℚ
  color : ℤ × ℤ × ℤ
  size : ℚ
  life : ℚ
  decay : ℚ
deriving DecidableEq

/-- Particle construction: life starts at 1.0 and the decay rate is the
single random draw from uniform(0.01, 0.03) made at spawn. -/
def Particle.init (x y velX velY : ℚ) (color : ℤ × ℤ × ℤ) (size rndDecay : ℚ) : Particle :=
  { x := x, y := y, velX := velX, velY := velY, color := color,
    size := size, life := 1, decay := rndDecay }

/-- Particle.update: integrate position by velocity * dt, subtract the
fixed decay from life (independently of dt), and apply gravity of
200 u/s^2 to the vertical velocity. -/
def Particle.update (dt : ℚ) (p : Particle) : Particle :=
  { p with
      x := p.x + p.velX * dt
      y := p.y + p.velY * dt
      life := p.life - p.decay
      velY := p.velY + 200 * dt }

/-- Particle.update's boolean result: the updated particle survives when
its life is still positive. -/
def Particle.aliveAfter (p : Particle) : Bool := decide (0 < p.life)

/-- ParticleSystem.update: update every particle and keep exactly those
whose updated life is positive. -/
def ParticleSystem.update (dt : ℚ) (ps : List Particle) : List Particle :=
  (ps.map (Particle.update dt)).filter Particle.aliveAfter

/-- Repeated Particle.update with one dt value per tick. -/
def Particle.updates (dts : List ℚ) (p : Particle) : Particle :=
  dts.foldl (fun q dt => Particle.update dt q) p

/-- Frame-over-frame paddle velocity used for spin at a paddle hit:
(rect.y - prev_y) / dt when dt > 0, else 0. -/
def paddleVelOf (padY padPrevY dt : ℚ) : ℚ :=
  if 0 < dt then (padY - padPrevY) / dt else 0

/-- Euclidean magnitude of a velocity vector (pygame Vector2.length). -/
noncomputable def speedOf (v : ℝ × ℝ) : ℝ := Real.sqrt (v.1 ^ 2 + v.2 ^ 2)

/-- Velocity effect of the paddle-collision branch of Ball.update: invert
the horizontal velocity, add spin 0.3 * paddle velocity to the vertical
velocity, then rescale the result to min(current speed * 1.05, 800) -
where current speed is measured after the spin was added (pygame
scale_to_length is a no-op guard when the speed is zero). -/
noncomputable def collideVel (vx vy : ℝ) (padY padPrevY dt : ℚ) : ℝ × ℝ :=
  let vx1 : ℝ := -vx
  let vy1 : ℝ := vy + (paddleVelOf padY padPrevY dt : ℝ) * (3/10)
  let s : ℝ := Real.sqrt (vx1 ^ 2 + vy1 ^ 2)
  let ns : ℝ := min (s * (21/20)) 800
  if 0 < s then (vx1 * (ns / s), vy1 * (ns / s)) else (vx1, vy1)

/-- Ball state: integer rect position, real velocity, trail history. -/
structure BallModel where
  rectX : ℤ
  rectY : ℤ
  velX : ℝ
  velY : ℝ
  trail : List (ℤ × ℤ)

/-- Ball.reset(direction): re-centre the rect on (WIDTH // 2, HEIGHT // 2),
set velocity to (BALL_SPEED_INIT * direction, 0) rotated by the random
serve angle (degrees, drawn from uniform(-30, 30)), and clear the trail. -/
noncomputable def Ball.reset (direction : ℤ) (angleDeg : ℝ) (b : BallModel) : BallModel :=
  let theta : ℝ := angleDeg * Real.pi / 180
  { b with
      rectX := WIDTH / 2 - BALL_SIZE / 2
      rectY := HEIGHT / 2 - BALL_SIZE / 2
      velX := (BALL_SPEED_INIT : ℝ) * (direction : ℝ) * Real.cos theta
      velY := (BALL_SPEED_INIT : ℝ) * (direction : ℝ) * Real.sin theta
      trail := [] }

/-- Outcome of the per-frame scoring check in the playing state: the
updated score pair [AI, player] and the serve direction of the ball reset
this frame triggers, if any.  The player scores when the ball's right
edge (rectX + BALL_SIZE) is left of 0; the AI scores when the left edge
is right of WIDTH. -/
def scoringStep (scores : ℤ × ℤ) (ballRectX : ℤ) : (ℤ × ℤ) × Option ℤ :=
  if ballRectX + BALL_SIZE < 0 then ((scores.1, scores.2 + 1), some (-1))
  else if ballRectX > WIDTH then ((scores.1 + 1, scores.2), some 1)
  else (scores, Option.none)

/-- The three values of the game_state string. -/
inductive GameState
  | start
  | playing
  | gameOver
deriving DecidableEq

/-- Key-down events the main loop reacts to. -/
inductive KeyInput
  | escape
  | space
  | keyY
  | keyN
  | other
deriving DecidableEq

/-- State touched by the key-down handler of the main loop.  running is
the loop flag: once it is false the loop exits and the process
terminates via pygame.quit / sys.exit.  played records the one-shot
sounds triggered, in order. -/
structure LoopState where
  gameState : GameState
  scores : ℤ × ℤ
  ball : BallModel
  flashAlpha : ℚ
  running : Bool
  played : List String

/-- The KEYDOWN branch of the main loop's event handling: ESC always
stops the loop; SPACE starts a fresh game from the start screen; Y
restarts a fresh game from the game-over screen; N on the game-over
screen beeps and stops the loop.  angleDeg is the serve angle drawn by
the Ball.reset(1) call inside the restart branches. -/
noncomputable def handleKeydown (angleDeg : ℝ) (s : LoopState) (k : KeyInput) : LoopState :=
  match k with
  | KeyInput.escape => { s with running := false }
  | KeyInput.space =>
      if s.gameState = GameState.start then
        { s with gameState := GameState.playing, scores := (0, 0),
                 ball := Ball.reset 1 angleDeg s.ball, flashAlpha := 255,
                 played := s.played ++ ["game_start"] }
      else s
  | KeyInput.keyY =>
      if s.gameState = GameState.gameOver then
        { s with gameState := GameState.playing, scores := (0, 0),
                 ball := Ball.reset 1 angleDeg s.ball, flashAlpha := 255,
                 played := s.played ++ ["game_start"] }
      else s
  | KeyInput.keyN =>
      if s.gameState = GameState.gameOver then
        { s with running := false, played := s.played ++ ["menu_beep"] }
      else s
  | KeyInput.other => s

/-- Truncation toward zero agrees with the floor on nonnegative inputs. -/
theorem pyInt_of_nonneg {q : ℚ} (h : 0 ≤ q) : pyInt q = ⌊q⌋ := by
  unfold pyInt
  exact if_pos h

/-- Truncation toward zero sends nonpositive rationals to nonpositive integers. -/
theorem pyInt_nonpos {q : ℚ} (h : q ≤ 0) : pyInt q ≤ 0 := by
  unfold pyInt
  by_cases h0 : 0 ≤ q
  · have hq : q = 0 := le_antisymm h h0
    simp [hq]
  · rw [if_neg h0]
    have h1 : (0 : ℚ) ≤ -q := by linarith
    have h2 : (0 : ℤ) ≤ ⌊-q⌋ := Int.le_floor.2 (by exact_mod_cast h1)
    omega

/-- Paddle.move always lands in the clamp interval [0, HEIGHT - PAD_H]. -/
theorem Paddle.move_bounds (y : ℤ) (dy : ℚ) :
    0 ≤ Paddle.move y dy ∧ Paddle.move y dy ≤ HEIGHT - PAD_H := by
  unfold Paddle.move
  have hq0 : (0 : ℚ) ≤ max 0 (min ((HEIGHT - PAD_H : ℤ) : ℚ) ((y : ℚ) + dy)) :=
    le_max_left _ _
  rw [pyInt_of_nonneg hq0]
  constructor
  · exact Int.le_floor.2 (by exact_mod_cast hq0)
  · have hq1 : max 0 (min ((HEIGHT - PAD_H : ℤ) : ℚ) ((y : ℚ) + dy))
        ≤ ((HEIGHT - PAD_H : ℤ) : ℚ) := by
      refine max_le ?_ (min_le_left _ _)
      norm_num [HEIGHT, PAD_H]
    calc ⌊max 0 (min ((HEIGHT - PAD_H : ℤ) : ℚ) ((y : ℚ) + dy))⌋
        ≤ ⌊((HEIGHT - PAD_H : ℤ) : ℚ)⌋ := Int.floor_le_floor hq1
      _ = HEIGHT - PAD_H := Int.floor_intCast _

/-- Life after a sequence of updates: each tick subtracts exactly the
fixed decay, whatever the dt values were. -/
theorem Particle.life_updates (dts : List ℚ) (p : Particle) :
    (Particle.updates dts p).life = p.life - dts.length * p.decay := by
  induction dts generalizing p with
  | nil => simp [Particle.updates]
  | cons d rest ih =>
      rw [show Particle.updates (d :: rest) p
            = Particle.updates rest (Particle.update d p) from rfl, ih]
      simp only [Particle.update, List.length_cons]
      push_cast
      ring

/-- The decay rate never changes after spawn. -/
theorem Particle.decay_updates (dts : List ℚ) (p : Particle) :
    (Particle.updates dts p).decay = p.decay := by
  induction dts generalizing p with
  | nil => rfl
  | cons d rest ih =>
      rw [show Particle.updates (d :: rest) p
            = Particle.updates rest (Particle.update d p) from rfl, ih]
      rfl

/-- C5: from the game-over screen the Y key restarts play with both
scores reset to zero and the ball served again (Ball.reset with
direction 1), the N key stops the main loop (ending the process), and
from the start screen SPACE begins play with zero scores and a fresh
serve. -/
theorem C5_state_machine (s u : LoopState) (a b c : ℝ)
    (hs : s.gameState = GameState.gameOver) (hu : u.gameState = GameState.start) :
    ((handleKeydown a s KeyInput.keyY).gameState = GameState.playing
      ∧ (handleKeydown a s KeyInput.keyY).scores = (0, 0)
      ∧ (handleKeydown a s KeyInput.keyY).ball = Ball.reset 1 a s.ball)
    ∧ (handleKeydown b s KeyInput.keyN).running = false
    ∧ ((handleKeydown c u KeyInput.space).gameState = GameState.playing
      ∧ (handleKeydown c u KeyInput.space).scores = (0, 0)
      ∧ (handleKeydown c u KeyInput.space).ball = Ball.reset 1 c u.ball) := by
  simp [handleKeydown, hs, hu]

/-- Witness for C5 at concrete loop states. -/
theorem C5_witness :
    (handleKeydown 0 ⟨GameState.gameOver, (3, 5), ⟨0, 0, 0, 0, []⟩, 0, true, []⟩
        KeyInput.keyY).gameState = GameState.playing
    ∧ (handleKeydown 0 ⟨GameState.gameOver, (3, 5), ⟨0, 0, 0, 0, []⟩, 0, true, []⟩
        KeyInput.keyN).running = false
    ∧ (handleKeydown 0 ⟨GameState.start, (0, 0), ⟨0, 0, 0, 0, []⟩, 0, true, []⟩
        KeyInput.space).scores = (0, 0) :=
  ⟨(C5_state_machine ⟨GameState.gameOver, (3, 5), ⟨0, 0, 0, 0, []⟩, 0, true, []⟩
      ⟨GameState.start, (0, 0), ⟨0, 0, 0, 0, []⟩, 0, true, []⟩ 0 0 0 rfl rfl).1.1,
   (C5_state_machine ⟨GameState.gameOver, (3, 5), ⟨0, 0, 0, 0, []⟩, 0, true, []⟩
      ⟨GameState.start, (0, 0), ⟨0, 0, 0, 0, []⟩, 0, true, []⟩ 0 0 0 rfl rfl).2.1,
   (C5_state_machine ⟨GameState.gameOver, (3, 5), ⟨0, 0, 0, 0, []⟩, 0, true, []⟩
      ⟨GameState.start, (0, 0), ⟨0, 0, 0, 0, []⟩, 0, true, []⟩ 0 0 0 rfl rfl).2.2.2.1⟩

/-- C6: on a frame where the ball's right edge is left of 0 the player
score (scores[1]) goes up by exactly one, the AI score is unchanged, and
the triggered Ball.reset(-1) re-centres the rect on (WIDTH // 2,
HEIGHT // 2) and serves with a negative horizontal velocity, toward the
AI side, for every legal serve angle. -/
theorem C6_player_score (scores : ℤ × ℤ) (ballX : ℤ) (b : BallModel) (angleDeg : ℝ)
    (hb : ballX + BALL_SIZE < 0) (ha : |angleDeg| ≤ 30) :
    scoringStep scores ballX = ((scores.1, scores.2 + 1), some (-1))
    ∧ (Ball.reset (-1) angleDeg b).rectX = 592
    ∧ (Ball.reset (-1) angleDeg b).rectY = 329
    ∧ (Ball.reset (-1) angleDeg b).velX < 0 := by
  refine ⟨by simp [scoringStep, hb], by simp [Ball.reset, WIDTH, BALL_SIZE],
    by simp [Ball.reset, HEIGHT, BALL_SIZE], ?_⟩
  show (BALL_SPEED_INIT : ℝ) * (((-1 : ℤ) : ℝ)) * Real.cos (angleDeg * Real.pi / 180) < 0
  have hpi : 0 < Real.pi := Real.pi_pos
  have habs : |angleDeg * Real.pi / 180| ≤ Real.pi / 6 := by
    rw [abs_div, abs_mul, abs_of_nonneg hpi.le]
    rw [show |(180 : ℝ)| = 180 by norm_num]
    rw [div_le_div_iff₀ (by norm_num) (by norm_num)]
    nlinarith [abs_nonneg angleDeg]
  have hmem : angleDeg * Real.pi / 180 ∈ Set.Ioo (-(Real.pi / 2)) (Real.pi / 2) := by
    rcases abs_le.1 habs with ⟨hl, hr⟩
    constructor <;> [linarith; linarith]
  have hcos : 0 < Real.cos (angleDeg * Real.pi / 180) := Real.cos_pos_of_mem_Ioo hmem
  have hspeed : (0 : ℝ) < (BALL_SPEED_INIT : ℝ) := by norm_num [BALL_SPEED_INIT]
  nlinarith [hcos, hspeed]

/-- Witness for C6 at a concrete frame. -/
theorem C6_witness :
    scoringStep (2, 2) (-20) = ((2, 3), some (-1))
    ∧ (Ball.reset (-1) 0 ⟨0, 0, 0, 0, []⟩).velX < 0 :=
  ⟨(C6_player_score (2, 2) (-20) ⟨0, 0, 0, 0, []⟩ 0 (by decide) (by norm_num)).1,
   (C6_player_score (2, 2) (-20) ⟨0, 0, 0, 0, []⟩ 0 (by decide) (by norm_num)).2.2.2⟩

/-- C7: Paddle.move lands in [0, HEIGHT - PAD_H] for every dy and every
starting y, and Paddle.ai_move preserves that invariant. -/
theorem C7_paddle_clamp (y t z : ℤ) (dy dt : ℚ)
    (hz0 : 0 ≤ z) (hz1 : z ≤ HEIGHT - PAD_H) :
    (0 ≤ Paddle.move y dy ∧ Paddle.move y dy ≤ HEIGHT - PAD_H)
    ∧ (0 ≤ Paddle.aiMove z t dt ∧ Paddle.aiMove z t dt ≤ HEIGHT - PAD_H) := by
  refine ⟨Paddle.move_bounds y dy, ?_⟩
  unfold Paddle.aiMove
  by_cases h : |t - (z + PAD_H / 2)| < 5
  · rw [if_pos h]
    exact ⟨hz0, hz1⟩
  · rw [if_neg h]
    exact Paddle.move_bounds z _

/-- Witness for C7 at concrete positions. -/
theorem C7_witness :
    (0 ≤ Paddle.move 100 (11/2) ∧ Paddle.move 100 (11/2) ≤ HEIGHT - PAD_H)
    ∧ (0 ≤ Paddle.aiMove 100 300 (1/60) ∧ Paddle.aiMove 100 300 (1/60) ≤ HEIGHT - PAD_H) :=
  C7_paddle_clamp 100 300 100 (11/2) (1/60) (by decide) (by decide)

/-- C8: the decay subtracted per tick is the per-particle constant fixed
at spawn, independent of dt; a particle spawned with life 1.0 and decay
0.02 therefore survives 49 system updates (whatever the dt values) and
is removed by the 50th. -/
theorem C8_particle_lifetime (p q : Particle) (dt dt2 dt3 : ℚ) (dts48 dts49 : List ℚ)
    (hdecay : p.decay = 1/50) (hlife : p.life = 1)
    (h48 : dts48.length = 48) (h49 : dts49.length = 49) :
    (Particle.update dt3 q).life = q.life - q.decay
    ∧ ParticleSystem.update dt [Particle.updates dts48 p]
        = [Particle.update dt (Particle.updates dts48 p)]
    ∧ ParticleSystem.update dt2 [Particle.updates dts49 p] = [] := by
  have hd48 : (Particle.updates dts48 p).decay = 1/50 := by
    rw [Particle.decay_updates, hdecay]
  have hl48 : (Particle.updates dts48 p).life = 1/25 := by
    rw [Particle.life_updates, hlife, hdecay, h48]
    norm_num
  have hd49 : (Particle.updates dts49 p).decay = 1/50 := by
    rw [Particle.decay_updates, hdecay]
  have hl49 : (Particle.updates dts49 p).life = 1/50 := by
    rw [Particle.life_updates, hlife, hdecay, h49]
    norm_num
  have hu48 : (Particle.update dt (Particle.updates dts48 p)).life = 1/50 := by
    show (Particle.updates dts48 p).life - (Particle.updates dts48 p).decay = 1/50
    rw [hl48, hd48]
    norm_num
  have hu49 : (Particle.update dt2 (Particle.updates dts49 p)).life = 0 := by
    show (Particle.updates dts49 p).life - (Particle.updates dts49 p).decay = 0
    rw [hl49, hd49]
    norm_num
  refine ⟨rfl, ?_, ?_⟩
  · simp [ParticleSystem.update, Particle.aliveAfter, hu48]
  · simp [ParticleSystem.update, Particle.aliveAfter, hu49]

/-- Witness for C8 at a concrete spawned particle and tick sequence. -/
theorem C8_witness :
    ParticleSystem.update (1/60)
      [Particle.updates (List.replicate 49 (1/60))
        (Particle.init 0 0 0 0 (255, 255, 255) 3 (1/50))] = [] :=
  (C8_particle_lifetime (Particle.init 0 0 0 0 (255, 255, 255) 3 (1/50))
    (Particle.init 0 0 0 0 (255, 255, 255) 3 (1/50)) (1/60) (1/60) (1/60)
    (List.replicate 48 (1/60)) (List.replicate 49 (1/60))
    rfl rfl (by simp) (by simp)).2.2

/-- C10: RetroSounds.play with a name outside the precomputed catalog is
a silent no-op leaving every mixer channel unchanged. -/
theorem C10_play_unknown_noop (st : List (Option String)) (name : String)
    (h : name ∉ soundNames) : play st name = st := by
  unfold play
  rw [if_neg h]

/-- Witness for C10 at a concrete mixer state and unknown name. -/
theorem C10_witness :
    play [some "wall_bounce", Option.none] "jungle_drum"
      = [some "wall_bounce", Option.none] :=
  C10_play_unknown_noop [some "wall_bounce", Option.none] "jungle_drum" (by decide)

/-- C9 counterexample: at y = 100 (centre 150), target 250 and
dt = 1/100 the exact tracking step is min(100, 4.8) = 4.8, but the
integer rect moves only 4 pixels, so the movement does not equal
min(abs(diff), AI_SPEED * dt) as claimed. -/
theorem C9_counterexample :
    Paddle.aiMove 100 250 (1/100) = 104
    ∧ ((104 : ℚ) - 100
        ≠ min (|((250 : ℚ) - (100 + 50))|) (AI_SPEED * (1/100))) := by
  constructor
  · norm_num [Paddle.aiMove, Paddle.move, pyInt, aiDir, aiAmount, AI_SPEED,
      PAD_H, HEIGHT]
  · norm_num [AI_SPEED]

/-- C9 amended: inside the 5-pixel deadband the paddle does not move;
outside it, whenever the exact proportional step stays inside the clamp
interval, the new integer y is the floor of y + direction *
min(abs(diff), AI_SPEED * dt) - i.e. the claimed movement holds only up
to sub-pixel truncation (the landing point is within 1 of the exact
tracking position), and it is additionally clamped at the bounds. -/
theorem C9_ai_move (y targetY y2 target2 : ℤ) (dt dt2 : ℚ)
    (hdead : |target2 - (y2 + PAD_H / 2)| < 5)
    (hfar : 5 ≤ |targetY - (y + PAD_H / 2)|)
    (hlo : 0 ≤ (y : ℚ) + aiDir (targetY - (y + PAD_H / 2))
        * aiAmount (targetY - (y + PAD_H / 2)) dt)
    (hhi : (y : ℚ) + aiDir (targetY - (y + PAD_H / 2))
        * aiAmount (targetY - (y + PAD_H / 2)) dt ≤ ((HEIGHT - PAD_H : ℤ) : ℚ)) :
    Paddle.aiMove y2 target2 dt2 = y2
    ∧ Paddle.aiMove y targetY dt
        = ⌊(y : ℚ) + aiDir (targetY - (y + PAD_H / 2))
            * aiAmount (targetY - (y + PAD_H / 2)) dt⌋
    ∧ |((Paddle.aiMove y targetY dt : ℤ) : ℚ)
        - ((y : ℚ) + aiDir (targetY - (y + PAD_H / 2))
            * aiAmount (targetY - (y + PAD_H / 2)) dt)| < 1 := by
  have hmove : Paddle.aiMove y targetY dt
      = ⌊(y : ℚ) + aiDir (targetY - (y + PAD_H / 2))
          * aiAmount (targetY - (y + PAD_H / 2)) dt⌋ := by
    unfold Paddle.aiMove
    rw [if_neg (not_lt.2 hfar)]
    unfold Paddle.move
    rw [min_eq_right hhi, max_eq_right hlo, pyInt_of_nonneg hlo]
  refine ⟨?_, hmove, ?_⟩
  · unfold Paddle.aiMove
    rw [if_pos hdead]
  · rw [hmove]
    have h2 := Int.floor_le ((y : ℚ) + aiDir (targetY - (y + PAD_H / 2))
        * aiAmount (targetY - (y + PAD_H / 2)) dt)
    have h3 := Int.sub_one_lt_floor ((y : ℚ) + aiDir (targetY - (y + PAD_H / 2))
        * aiAmount (targetY - (y + PAD_H / 2)) dt)
    rw [abs_sub_lt_iff]
    constructor <;> linarith

/-- Witness for C9 amended at concrete inputs. -/
theorem C9_witness :
    Paddle.aiMove 0 52 (1/60) = 0
    ∧ Paddle.aiMove 100 250 (1/100)
        = ⌊(100 : ℚ) + aiDir (250 - (100 + PAD_H / 2))
            * aiAmount (250 - (100 + PAD_H / 2)) (1/100)⌋ :=
  ⟨(C9_ai_move 100 250 0 52 (1/100) (1/60) (by decide) (by decide)
      (by norm_num [aiDir, aiAmount, AI_SPEED, PAD_H])
      (by norm_num [aiDir, aiAmount, AI_SPEED, PAD_H, HEIGHT])).1,
   (C9_ai_move 100 250 0 52 (1/100) (1/60) (by decide) (by decide)
      (by norm_num [aiDir, aiAmount, AI_SPEED, PAD_H])
      (by norm_num [aiDir, aiAmount, AI_SPEED, PAD_H, HEIGHT])).2.1⟩

/-- C1 counterexample: the melody note D4 held for 0.15 s is a generated
clip of the DKC theme; 0.15 * 22050 = 3307.5, the buffer holds
int-truncated 3307 frames, but round gives 3308. -/
theorem C1_counterexample :
    (noteSegmentMelody ⟨294, 3/20, 7/10⟩ (fun _ => 0)).map List.length
        = Except.ok 3307
    ∧ round ((3/20 : ℚ) * SAMPLE_RATE) = 3308
    ∧ (3307 : ℕ) ≠ 3308 := by
  have hfr : pyInt ((3/20 : ℚ) * SAMPLE_RATE) = 3307 := by
    rw [pyInt_of_nonneg (by norm_num [SAMPLE_RATE])]
    norm_num [SAMPLE_RATE]
  refine ⟨?_, ?_, by decide⟩
  · simp only [noteSegmentMelody, hfr]
    norm_num [Except.map]
    decide
  · rw [round_eq]
    norm_num [SAMPLE_RATE]

/-- C1 amended: every generated clip - tone, sweep, melody note segment
and bass note segment - holds int(duration * SAMPLE_RATE) sample
frames, the truncation of the product rather than its rounding (the two
agree exactly when the fractional part is below one half). -/
theorem C1_frames_trunc (freq s e : ℝ) (d : ℚ) (wave : WaveType) (env : EnvType)
    (rnd : ℕ → ℝ) (note : MusicNote)
    (hd : 0 < pyInt (d * SAMPLE_RATE))
    (hn : 0 < pyInt (note.duration * SAMPLE_RATE)) :
    (generate_tone freq d wave env rnd).map List.length
        = Except.ok (pyInt (d * SAMPLE_RATE)).toNat
    ∧ (generate_sweep s e d wave rnd).map List.length
        = Except.ok (pyInt (d * SAMPLE_RATE)).toNat
    ∧ (noteSegmentMelody note rnd).map List.length
        = Except.ok (pyInt (note.duration * SAMPLE_RATE)).toNat
    ∧ (noteSegmentBass note).map List.length
        = Except.ok (pyInt (note.duration * SAMPLE_RATE)).toNat := by
  have h1 : ¬ pyInt (d * SAMPLE_RATE) < 0 := by omega
  have h2 : ¬ pyInt (d * SAMPLE_RATE) = 0 := by omega
  have h3 : ¬ pyInt (note.duration * SAMPLE_RATE) < 0 := by omega
  refine ⟨?_, ?_, ?_, ?_⟩
  · simp [generate_tone, h1, h2, normalizeStereo, Except.map]
  · simp [generate_sweep, h1, h2, normalizeStereo, Except.map]
  · by_cases hf : 0 < note.frequency
    · simp [noteSegmentMelody, h3, hf, Except.map]
    · simp [noteSegmentMelody, h3, hf, Except.map]
  · by_cases hf : 0 < note.frequency
    · simp [noteSegmentBass, h3, hf, Except.map]
    · simp [noteSegmentBass, h3, hf, Except.map]

/-- Witness for C1 amended at duration 0.1 s. -/
theorem C1_witness :
    (generate_tone 440 (1/10) WaveType.square EnvType.sharp (fun _ => 0)).map List.length
        = Except.ok (pyInt ((1/10 : ℚ) * SAMPLE_RATE)).toNat
    ∧ (pyInt ((1/10 : ℚ) * SAMPLE_RATE)).toNat = 2205 :=
  ⟨(C1_frames_trunc 440 800 1200 (1/10) WaveType.square EnvType.sharp (fun _ => 0)
      ⟨440, 1/10, 1⟩ (by norm_num [pyInt, SAMPLE_RATE]) (by norm_num [pyInt, SAMPLE_RATE])).1,
   by norm_num [pyInt, SAMPLE_RATE]; decide⟩

/-- C2 counterexample: generate_tone at duration 0 does not return an
empty buffer - the normalisation's np.max over the empty sample array
raises a ValueError. -/
theorem C2_counterexample :
    generate_tone 440 0 WaveType.square EnvType.sharp (fun _ => 0)
      = Except.error errEmptyMax := by
  have h : pyInt (0 : ℚ) = 0 := by
    rw [pyInt_of_nonneg le_rfl]
    norm_num
  simp [generate_tone, h]

/-- C2 amended: for every duration at most zero, generate_tone raises a
ValueError (a negative np.zeros dimension when the truncated frame count
is negative, an empty-array np.max reduction when it is zero); the
degenerate input is not recovered into an empty buffer. -/
theorem C2_duration_nonpos_raises (freq : ℝ) (d : ℚ) (wave : WaveType) (env : EnvType)
    (rnd : ℕ → ℝ) (hd : d ≤ 0) :
    ∃ msg, generate_tone freq d wave env rnd = Except.error msg := by
  have hq : d * SAMPLE_RATE ≤ 0 := by
    have hsr : (0 : ℚ) ≤ SAMPLE_RATE := by norm_num [SAMPLE_RATE]
    have := mul_le_mul_of_nonneg_right hd hsr
    simpa using this
  have hf : pyInt (d * SAMPLE_RATE) ≤ 0 := pyInt_nonpos hq
  by_cases h1 : pyInt (d * SAMPLE_RATE) < 0
  · exact ⟨errNegDim, by simp [generate_tone, h1]⟩
  · have h0 : pyInt (d * SAMPLE_RATE) = 0 := le_antisymm hf (not_lt.1 h1)
    exact ⟨errEmptyMax, by simp [generate_tone, h1, h0]⟩

/-- Witness for C2 amended at a strictly negative duration. -/
theorem C2_witness :
    ∃ msg, generate_tone 440 (-1) WaveType.sine EnvType.pluck (fun _ => 0)
      = Except.error msg :=
  C2_duration_nonpos_raises 440 (-1) WaveType.sine EnvType.pluck (fun _ => 0) (by norm_num)

/-- C3 counterexample: ball entering at velocity (-300, 0) hits a paddle
that moved 400 units this frame (dt = 0.3, paddle velocity 4000/3, spin
400); the code rescales from the speed measured after the spin was
added, giving post-collision speed 525, while the claim predicts
min(300 * 1.05, 800) = 315 from the pre-collision speed. -/
theorem C3_counterexample :
    speedOf (collideVel (-300) 0 400 0 (3/10)) = 525
    ∧ min (speedOf ((-300 : ℝ), (0 : ℝ)) * (21/20)) 800 = 315
    ∧ (525 : ℝ) ≠ 315 := by
  have hpv : paddleVelOf 400 0 (3/10) = 4000/3 := by
    norm_num [paddleVelOf]
  have hsqrt : Real.sqrt ((-(-300 : ℝ)) ^ 2
      + ((0 : ℝ) + ((paddleVelOf 400 0 (3/10) : ℚ) : ℝ) * (3/10)) ^ 2) = 500 := by
    rw [show (-(-300 : ℝ)) ^ 2
        + ((0 : ℝ) + ((paddleVelOf 400 0 (3/10) : ℚ) : ℝ) * (3/10)) ^ 2 = 250000 from by
      rw [hpv]; push_cast; norm_num]
    rw [show (250000 : ℝ) = 500 ^ 2 from by norm_num,
      Real.sqrt_sq (by norm_num : (0 : ℝ) ≤ 500)]
  have hcol : collideVel (-300) 0 400 0 (3/10) = (315, 420) := by
    simp only [collideVel]
    rw [hsqrt, if_pos (by norm_num : (0 : ℝ) < 500)]
    rw [show min ((500 : ℝ) * (21/20)) 800 = 525 from by
      rw [min_eq_left (by norm_num)]; norm_num]
    rw [hpv]
    push_cast
    norm_num
  refine ⟨?_, ?_, by norm_num⟩
  · rw [hcol]
    show Real.sqrt ((315 : ℝ) ^ 2 + (420 : ℝ) ^ 2) = 525
    rw [show (315 : ℝ) ^ 2 + (420 : ℝ) ^ 2 = 525 ^ 2 from by norm_num,
      Real.sqrt_sq (by norm_num : (0 : ℝ) ≤ 525)]
  · have hs2 : speedOf ((-300 : ℝ), (0 : ℝ)) = 300 := by
      show Real.sqrt ((-300 : ℝ) ^ 2 + (0 : ℝ) ^ 2) = 300
      rw [show (-300 : ℝ) ^ 2 + (0 : ℝ) ^ 2 = 300 ^ 2 from by norm_num,
        Real.sqrt_sq (by norm_num : (0 : ℝ) ≤ 300)]
    rw [hs2, show (300 : ℝ) * (21/20) = 315 from by norm_num,
      min_eq_left (by norm_num)]

/-- C3 amended: a paddle hit inverts the sign of the horizontal velocity
(negative becomes positive), and the post-collision speed equals
min(speed-after-spin * 1.05, 800), where speed-after-spin is the
magnitude of (-vx, vy + 0.3 * paddle velocity); only when the paddle did
not move between frames does that coincide with the pre-collision
speed, as the claim states. -/
theorem C3_collision_speed (vx vy : ℝ) (padY padPrevY dt : ℚ)
    (hvx : vx < 0)
    (hs : 0 < Real.sqrt ((-vx) ^ 2
        + (vy + ((paddleVelOf padY padPrevY dt : ℚ) : ℝ) * (3/10)) ^ 2)) :
    0 < (collideVel vx vy padY padPrevY dt).1
    ∧ speedOf (collideVel vx vy padY padPrevY dt)
        = min (Real.sqrt ((-vx) ^ 2
            + (vy + ((paddleVelOf padY padPrevY dt : ℚ) : ℝ) * (3/10)) ^ 2) * (21/20)) 800
    ∧ (padY = padPrevY →
        Real.sqrt ((-vx) ^ 2
            + (vy + ((paddleVelOf padY padPrevY dt : ℚ) : ℝ) * (3/10)) ^ 2)
          = speedOf (vx, vy)) := by
  set pv : ℝ := ((paddleVelOf padY padPrevY dt : ℚ) : ℝ) with hpvdef
  set s : ℝ := Real.sqrt ((-vx) ^ 2 + (vy + pv * (3/10)) ^ 2) with hsdef
  have hns_pos : 0 < min (s * (21/20)) 800 :=
    lt_min (mul_pos hs (by norm_num)) (by norm_num)
  have hcol : collideVel vx vy padY padPrevY dt
      = (-vx * (min (s * (21/20)) 800 / s),
         (vy + pv * (3/10)) * (min (s * (21/20)) 800 / s)) := by
    simp only [collideVel]
    rw [← hpvdef, ← hsdef, if_pos hs]
  refine ⟨?_, ?_, ?_⟩
  · rw [hcol]
    exact mul_pos (neg_pos.2 hvx) (div_pos hns_pos hs)
  · rw [hcol]
    show Real.sqrt ((-vx * (min (s * (21/20)) 800 / s)) ^ 2
        + ((vy + pv * (3/10)) * (min (s * (21/20)) 800 / s)) ^ 2) = min (s * (21/20)) 800
    have hc0 : 0 ≤ min (s * (21/20)) 800 / s := (div_pos hns_pos hs).le
    rw [show (-vx * (min (s * (21/20)) 800 / s)) ^ 2
          + ((vy + pv * (3/10)) * (min (s * (21/20)) 800 / s)) ^ 2
        = (min (s * (21/20)) 800 / s) ^ 2 * ((-vx) ^ 2 + (vy + pv * (3/10)) ^ 2) from by
      ring]
    rw [Real.sqrt_mul (sq_nonneg _), Real.sqrt_sq_eq_abs, abs_of_nonneg hc0, ← hsdef]
    exact div_mul_cancel₀ _ (ne_of_gt hs)
  · intro h
    have hpv0 : paddleVelOf padY padPrevY dt = 0 := by
      unfold paddleVelOf
      rw [h]
      split <;> simp
    rw [hsdef, hpvdef, hpv0]
    push_cast
    show Real.sqrt ((-vx) ^ 2 + (vy + 0 * (3/10)) ^ 2) = speedOf (vx, vy)
    rw [show (-vx) ^ 2 + (vy + 0 * (3/10)) ^ 2 = vx ^ 2 + vy ^ 2 from by ring]
    rfl

/-- Witness for C3 amended: a leftward ball at (-300, 400) hitting a
stationary paddle leaves with a positive horizontal velocity. -/
theorem C3_witness : 0 < (collideVel (-300) 400 0 0 1).1 := by
  have hpv : paddleVelOf 0 0 1 = 0 := by norm_num [paddleVelOf]
  have hs : 0 < Real.sqrt ((-(-300 : ℝ)) ^ 2
      + ((400 : ℝ) + ((paddleVelOf 0 0 1 : ℚ) : ℝ) * (3/10)) ^ 2) := by
    rw [show (-(-300 : ℝ)) ^ 2
        + ((400 : ℝ) + ((paddleVelOf 0 0 1 : ℚ) : ℝ) * (3/10)) ^ 2 = 250000 from by
      rw [hpv]; push_cast; norm_num]
    exact Real.sqrt_pos.2 (by norm_num)
  exact (C3_collision_speed (-300) 400 0 0 1 (by norm_num) hs).1

/-- C4: the frequency parameter generate_sweep uses at elapsed time t is
start * (end / start) ^ (t / duration); for the 800 to 1200 Hz sweep
over 0.3 s it is 800 at t = 0, 1200 at t = 0.3, and 800 * sqrt(3/2),
between 979 and 980 Hz (about 979.8), at t = 0.15. -/
theorem C4_sweep_freq_checkpoints :
    sweepFreq 800 1200 (3/10) 0 = 800
    ∧ sweepFreq 800 1200 (3/10) (3/10) = 1200
    ∧ sweepFreq 800 1200 (3/10) (3/20) = 800 * Real.sqrt (3/2)
    ∧ 979 < sweepFreq 800 1200 (3/10) (3/20)
    ∧ sweepFreq 800 1200 (3/10) (3/20) < 980 := by
  have h0 : sweepFreq 800 1200 (3/10) 0 = 800 := by
    unfold sweepFreq
    rw [show (0 : ℝ) / (3/10) = 0 from by norm_num, Real.rpow_zero]
    norm_num
  have h1 : sweepFreq 800 1200 (3/10) (3/10) = 1200 := by
    unfold sweepFreq
    rw [show (3/10 : ℝ) / (3/10) = 1 from by norm_num, Real.rpow_one]
    norm_num
  have hhalf : sweepFreq 800 1200 (3/10) (3/20) = 800 * Real.sqrt (3/2) := by
    unfold sweepFreq
    rw [show (3/20 : ℝ) / (3/10) = 1/2 from by norm_num,
      show (1200 : ℝ) / 800 = 3/2 from by norm_num, ← Real.sqrt_eq_rpow]
  have hlb : (979 : ℝ) < 800 * Real.sqrt (3/2) := by
    have h2 : (979/800 : ℝ) < Real.sqrt (3/2) := by
      refine (Real.lt_sqrt (by norm_num)).2 ?_
      norm_num
    nlinarith [h2]
  have hub : 800 * Real.sqrt (3/2) < 980 := by
    have h2 : Real.sqrt (3/2) < (980/800 : ℝ) := by
      refine (Real.sqrt_lt' (by norm_num)).2 ?_
      norm_num
    nlinarith [h2]
  exact ⟨h0, h1, hhalf, by rw [hhalf]; exact hlb, by rw [hhalf]; exact hub⟩
